import Mathlib

/-!
Verification of the real-time console transcription utility (src/main.py).

The program is a thin glue layer: an audio callback feeds fixed-size chunks
to a black-box recognizer and renders partial/final transcription text on a
single console line.  We embed the observable behaviour shallowly:

* Python strings become `List Char`; `str.strip`, `str.ljust` and string
  concatenation are reimplemented faithfully.
* stdout is modelled as a character terminal: a list of committed lines,
  the current visible line, and a cursor column.  A carriage return moves
  the cursor to column 0, a newline commits the current line, and any other
  character overwrites the cell under the cursor.
* The recognizer is opaque: each chunk yields the boolean returned by
  AcceptWaveform together with the text fields of Result / PartialResult.
* `main` becomes an event-trace function over an environment recording
  whether model loading and stream opening succeed and when the keep-alive
  loop is interrupted.
-/

namespace FBAI

/-- One console line, modelled as its list of characters. -/
abbrev Line := List Char

/-- Terminal state: committed (newline-terminated) lines, the current
visible line, and the cursor column inside that line. -/
structure Term where
  lines : List Line
  cur : Line
  col : Nat
deriving DecidableEq, Repr

/-- Overwrite the character at index `i` of `s` with `c`; if `i` is past the
end the character is appended (the cursor never is, in reachable states). -/
def writeAt (s : Line) (i : Nat) (c : Char) : Line :=
  s.take i ++ [c] ++ s.drop (i + 1)

/-- Process one output character: carriage return resets the column, newline
commits the current line, anything else overwrites the cell at the cursor. -/
def putc (t : Term) (c : Char) : Term :=
  if c = '\r' then { t with col := 0 }
  else if c = '\n' then { lines := t.lines ++ [t.cur], cur := [], col := 0 }
  else { t with cur := writeAt t.cur t.col c, col := t.col + 1 }

/-- Process a whole output string, character by character. -/
def writeStr (t : Term) (s : Line) : Term :=
  s.foldl putc t

/-- Python `str.strip()`: drop whitespace from both ends. -/
def stripChars (l : Line) : Line :=
  ((l.dropWhile Char.isWhitespace).reverse.dropWhile Char.isWhitespace).reverse

/-- Python `str.ljust(w)` with space fill. -/
def ljust (l : Line) (w : Nat) : Line :=
  l ++ List.replicate (w - l.length) ' '

/-- Visible content of a terminal line: trailing space padding is
indistinguishable from empty cells, so we strip it. -/
def rstrip (l : Line) : Line :=
  (l.reverse.dropWhile (fun c => c == ' ')).reverse

/-- The region of `cur` covered when `s` is written starting at column
`col`: cells before the cursor survive, the written cells are replaced,
cells beyond the written region survive. -/
def overwrite (cur : Line) (col : Nat) (s : Line) : Line :=
  cur.take col ++ s ++ cur.drop (col + s.length)

theorem putc_cr (t : Term) : putc t '\r' = { t with col := 0 } := rfl

theorem putc_nl (t : Term) :
    putc t '\n' = { lines := t.lines ++ [t.cur], cur := [], col := 0 } := rfl

theorem putc_print (t : Term) (c : Char) (h1 : c ≠ '\r') (h2 : c ≠ '\n') :
    putc t c = { t with cur := writeAt t.cur t.col c, col := t.col + 1 } := by
  simp [putc, h1, h2]

theorem writeStr_nil (t : Term) : writeStr t [] = t := rfl

theorem writeStr_cons (t : Term) (c : Char) (s : Line) :
    writeStr t (c :: s) = writeStr (putc t c) s := rfl

theorem writeStr_append (t : Term) (a b : Line) :
    writeStr t (a ++ b) = writeStr (writeStr t a) b := by
  simp [writeStr, List.foldl_append]

/-- Writing a control-free string advances the cursor over it and replaces
exactly the cells it covers. -/
theorem writeStr_printable (s : Line) (L : List Line) (cur : Line) (col : Nat)
    (h : ∀ c ∈ s, c ≠ '\r' ∧ c ≠ '\n') :
    writeStr ⟨L, cur, col⟩ s = ⟨L, overwrite cur col s, col + s.length⟩ := by
  induction s generalizing cur col with
  | nil => simp [writeStr_nil, overwrite, List.take_append_drop]
  | cons c cs ih =>
    have hc := h c (List.mem_cons_self c cs)
    have hcs : ∀ x ∈ cs, x ≠ '\r' ∧ x ≠ '\n' :=
      fun x hx => h x (List.mem_cons_of_mem c hx)
    rw [writeStr_cons, putc_print _ _ hc.1 hc.2]
    simp only
    rw [ih _ _ hcs]
    have key : overwrite (writeAt cur col c) (col + 1) cs =
        overwrite cur col (c :: cs) := by
      unfold overwrite writeAt
      rcases le_or_lt col cur.length with hle | hlt
      · have htake : ((cur.take col ++ [c]) ++ cur.drop (col + 1)).take (col + 1) =
            cur.take col ++ [c] := by
          rw [List.take_append_of_le_length]
          · rw [List.take_of_length_le]
            simp [List.length_take, Nat.min_eq_left hle]
          · simp [List.length_take, Nat.min_eq_left hle]
        have hdrop : ∀ n, ((cur.take col ++ [c]) ++ cur.drop (col + 1)).drop (col + 1 + n) =
            cur.drop (col + 1 + n) := by
          intro n
          rw [List.drop_append_eq_append_drop]
          have hlen : (cur.take col ++ [c]).length = col + 1 := by
            simp [List.length_take, Nat.min_eq_left hle]
          rw [List.drop_of_length_le (by omega)]
          rw [hlen]
          simp [List.drop_drop]
        rw [List.append_assoc, htake, hdrop]
        have hlen : col + 1 + cs.length = col + (c :: cs).length := by simp; omega
        rw [hlen]
        simp
      · have htk : cur.take col = cur := List.take_of_length_le (Nat.le_of_lt hlt)
        have hdr : cur.drop (col + 1) = [] := List.drop_eq_nil_of_le (by omega)
        rw [htk, hdr]
        rw [List.take_of_length_le (by simp; omega)]
        rw [List.drop_of_length_le (by simp; omega)]
        rw [List.drop_of_length_le (show cur.length ≤ col + (c :: cs).length by simp; omega)]
        simp
    rw [Term.mk.injEq]
    exact ⟨rfl, key, by simp [List.length_cons]; omega⟩

theorem overwrite_zero (cur s : Line) :
    overwrite cur 0 s = s ++ cur.drop s.length := by
  simp [overwrite]

theorem length_ljust (l : Line) (w : Nat) :
    (ljust l w).length = max l.length w := by
  simp [ljust]
  omega

/-- Appending space padding does not change the visible content. -/
theorem rstrip_append_replicate (l : Line) (k : Nat) :
    rstrip (l ++ List.replicate k ' ') = rstrip l := by
  unfold rstrip
  rw [List.reverse_append, List.reverse_replicate,
    List.dropWhile_append_of_pos (by intro a ha; simp at ha; simp [ha.2])]

/-- A line whose last character is not a space is its own visible content. -/
theorem rstrip_eq_self (l : Line) (h : ∀ c, l.getLast? = some c → c ≠ ' ') :
    rstrip l = l := by
  unfold rstrip
  cases hrev : l.reverse with
  | nil => simpa using congrArg List.reverse hrev
  | cons c cs =>
    have hlast : l.getLast? = some c := by
      rw [← List.head?_reverse, hrev]; rfl
    have hc : (c == ' ') = false := by
      simpa using h c hlast
    rw [List.dropWhile_cons, hc]
    simpa using (congrArg List.reverse hrev).symm

/-- The last character surviving a strip is not whitespace. -/
theorem stripChars_getLast_not_ws (l : Line) (c : Char)
    (hc : (stripChars l).getLast? = some c) : c.isWhitespace = false := by
  unfold stripChars at hc
  rw [List.getLast?_reverse] at hc
  have h := List.head?_dropWhile_not Char.isWhitespace
    ((l.dropWhile Char.isWhitespace).reverse)
  rw [hc] at h
  exact h

/-- The visible content of a stripped text padded on the right, possibly
prefixed by a label, is exactly the label and the text. -/
theorem rstrip_ljust_strip (a l : Line) (w : Nat) (hne : stripChars l ≠ []) :
    rstrip (ljust (a ++ stripChars l) w) = a ++ stripChars l := by
  unfold ljust
  rw [rstrip_append_replicate]
  apply rstrip_eq_self
  intro c hc
  have h1 : (stripChars l).getLast?.isSome := by
    rw [Option.isSome_iff_ne_none]
    simp only [ne_eq, List.getLast?_eq_none_iff]
    exact hne
  obtain ⟨d, hd⟩ := Option.isSome_iff_exists.mp h1
  rw [List.getLast?_append, hd] at hc
  simp only [Option.or_some] at hc
  cases hc
  have hws := stripChars_getLast_not_ws l c hd
  intro hsp
  rw [hsp] at hws
  simp at hws

/-! ## The audio callback (src/main.py, audio_callback, lines 40-78)

The recognizer is a black box: per chunk we record the boolean returned by
AcceptWaveform together with the text field of Result() and the partial
field of PartialResult(), already JSON-decoded.  The callback state is the
stdout terminal, the list of stderr lines, and the number of chunks fed to
AcceptWaveform. -/

/-- What the recognizer reports for one audio chunk: the value of
`recognizer.AcceptWaveform(audio_bytes)` and the text fields that
`Result()` / `PartialResult()` would return for this chunk. -/
structure ChunkResponse where
  accept : Bool
  resultText : Line
  interimText : Line
deriving DecidableEq, Repr

/-- State threaded through callback invocations. -/
structure CallbackState where
  term : Term
  stderrLines : List Line
  fed : Nat
deriving DecidableEq, Repr

/-- Line 47: `print(f"SoundDevice Status: {status}", file=sys.stderr)`. -/
def statusLine (s : Line) : Line := "SoundDevice Status: ".data ++ s

/-- Line 65: the listening prompt. -/
def PROMPT : Line := "[Listening... Speak now]".data

/-- The exact characters the callback writes to stdout for one chunk
(src/main.py lines 54-78):

* final with nonempty stripped text: line 61 clears 80 columns, line 62 is
  `print(f"TRANSCRIPTION: {text}")`, then line 65 rewrites the prompt
  padded with `ljust(80)`;
* final with empty stripped text: only the line-65 prompt rewrite;
* nonempty stripped partial text: line 77 writes the `[Speaking... ...]`
  display padded with `ljust(80)` between carriage returns;
* empty stripped partial text: nothing is written. -/
def stdoutBytes (r : ChunkResponse) : Line :=
  if r.accept then
    (if stripChars r.resultText = [] then []
     else ('\r' :: List.replicate 80 ' ')
       ++ ('\r' :: ("TRANSCRIPTION: ".data ++ stripChars r.resultText)) ++ ['\n'])
    ++ (('\r' :: ljust PROMPT 80) ++ ['\r'])
  else
    if stripChars r.interimText = [] then []
    else ('\r' :: ljust ("[Speaking... ".data ++ stripChars r.interimText ++ "]".data) 80)
      ++ ['\r']

/-- One invocation of `audio_callback` (src/main.py lines 40-78): a truthy
status is logged to stderr (line 47), the chunk bytes are fed to the
recognizer unconditionally (line 54, counted in `fed`), and the branch on
the AcceptWaveform result produces the stdout bytes of `stdoutBytes`. -/
def audio_callback (st : CallbackState) (status : Option Line) (r : ChunkResponse) :
    CallbackState :=
  { term := writeStr st.term (stdoutBytes r),
    stderrLines := st.stderrLines ++
      (match status with
       | some s => [statusLine s]
       | none => []),
    fed := st.fed + 1 }

/-- Chunks are delivered by the audio driver one at a time, in order. -/
def runChunks (st : CallbackState) (chunks : List (Option Line × ChunkResponse)) :
    CallbackState :=
  chunks.foldl (fun s c => audio_callback s c.1 c.2) st

theorem writeStr_cr_printable (L : List Line) (cur s : Line) (col : Nat)
    (h : ∀ c ∈ s, c ≠ '\r' ∧ c ≠ '\n') :
    writeStr ⟨L, cur, col⟩ ('\r' :: s) = ⟨L, overwrite cur 0 s, s.length⟩ := by
  rw [writeStr_cons, putc_cr]
  simp only
  rw [writeStr_printable _ _ _ _ h]
  simp

/-- Effect of the clear / print-final / prompt sequence when the current
line fits in the 80 cleared columns: exactly one line is committed, and it
is the transcription message padded to 80 columns. -/
theorem writeStr_final_branch (L : List Line) (cur text : Line) (col : Nat)
    (hcur : cur.length ≤ 80)
    (htext : ∀ c ∈ text, c ≠ '\r' ∧ c ≠ '\n') :
    writeStr ⟨L, cur, col⟩
      ((('\r' :: List.replicate 80 ' ')
        ++ ('\r' :: ("TRANSCRIPTION: ".data ++ text)) ++ ['\n'])
        ++ (('\r' :: ljust PROMPT 80) ++ ['\r'])) =
      ⟨L ++ [ljust ("TRANSCRIPTION: ".data ++ text) 80], ljust PROMPT 80, 0⟩ := by
  have hrep : ∀ c ∈ List.replicate 80 ' ', c ≠ '\r' ∧ c ≠ '\n' := by
    intro c hcmem
    rw [List.eq_of_mem_replicate hcmem]
    exact ⟨by decide, by decide⟩
  have hlit : ∀ c ∈ "TRANSCRIPTION: ".data, c ≠ '\r' ∧ c ≠ '\n' := by decide
  have hmsg : ∀ c ∈ "TRANSCRIPTION: ".data ++ text, c ≠ '\r' ∧ c ≠ '\n' := by
    intro c hcmem
    rcases List.mem_append.mp hcmem with hmem | hmem
    · exact hlit c hmem
    · exact htext c hmem
  have hpr : ∀ c ∈ ljust PROMPT 80, c ≠ '\r' ∧ c ≠ '\n' := by decide
  simp only [writeStr_append]
  rw [writeStr_cr_printable _ _ _ _ hrep]
  rw [overwrite_zero]
  rw [List.length_replicate, List.drop_eq_nil_of_le hcur, List.append_nil]
  rw [writeStr_cr_printable _ _ _ _ hmsg]
  rw [overwrite_zero, List.drop_replicate]
  have hnl : writeStr
      ⟨L, "TRANSCRIPTION: ".data ++ text
        ++ List.replicate (80 - ("TRANSCRIPTION: ".data ++ text).length) ' ',
        ("TRANSCRIPTION: ".data ++ text).length⟩ ['\n'] =
      ⟨L ++ ["TRANSCRIPTION: ".data ++ text
        ++ List.replicate (80 - ("TRANSCRIPTION: ".data ++ text).length) ' '], [], 0⟩ := rfl
  rw [hnl]
  rw [writeStr_cr_printable _ _ _ _ hpr]
  rw [overwrite_zero, List.drop_nil, List.append_nil]
  have hcr : writeStr ⟨L ++ ["TRANSCRIPTION: ".data ++ text
      ++ List.replicate (80 - ("TRANSCRIPTION: ".data ++ text).length) ' '],
      ljust PROMPT 80, (ljust PROMPT 80).length⟩ ['\r'] =
      ⟨L ++ ["TRANSCRIPTION: ".data ++ text
        ++ List.replicate (80 - ("TRANSCRIPTION: ".data ++ text).length) ' '],
        ljust PROMPT 80, 0⟩ := rfl
  rw [hcr]
  simp [ljust]

/-- Effect of a single carriage-return framed padded write (the partial
display and the prompt rewrite both have this shape). -/
theorem writeStr_padded (L : List Line) (cur disp : Line) (col : Nat)
    (hdisp : ∀ c ∈ ljust disp 80, c ≠ '\r' ∧ c ≠ '\n') :
    writeStr ⟨L, cur, col⟩ (('\r' :: ljust disp 80) ++ ['\r']) =
      ⟨L, ljust disp 80 ++ cur.drop (ljust disp 80).length, 0⟩ := by
  simp only [writeStr_append]
  rw [writeStr_cr_printable _ _ _ _ hdisp]
  rw [overwrite_zero]
  rfl

/-- When the current line fits in 80 columns, a padded write replaces it
completely: nothing of the previous line survives. -/
theorem writeStr_padded_of_le (L : List Line) (cur disp : Line) (col : Nat)
    (hcur : cur.length ≤ 80)
    (hdisp : ∀ c ∈ ljust disp 80, c ≠ '\r' ∧ c ≠ '\n') :
    writeStr ⟨L, cur, col⟩ (('\r' :: ljust disp 80) ++ ['\r']) =
      ⟨L, ljust disp 80, 0⟩ := by
  rw [writeStr_padded _ _ _ _ hdisp]
  rw [List.drop_eq_nil_of_le (le_trans hcur (by rw [length_ljust]; omega)),
    List.append_nil]

/-- Claim C1 (amended): for a chunk on which AcceptWaveform returns true
with nonempty stripped final text, provided the currently displayed line
fits in the 80 cleared columns, the callback commits exactly one permanent
line, its visible content is TRANSCRIPTION followed by the text, and the
listening prompt is rewritten before the callback returns (hence before any
later chunk is processed, since chunks are handled sequentially). -/
theorem final_chunk_prints_one_transcription_line
    (st : CallbackState) (status : Option Line) (r : ChunkResponse)
    (haccept : r.accept = true)
    (htext : stripChars r.resultText ≠ [])
    (hclean : ∀ c ∈ stripChars r.resultText, c ≠ '\r' ∧ c ≠ '\n')
    (hcur : st.term.cur.length ≤ 80) :
    (audio_callback st status r).term.lines =
      st.term.lines ++ [ljust ("TRANSCRIPTION: ".data ++ stripChars r.resultText) 80] ∧
    rstrip (ljust ("TRANSCRIPTION: ".data ++ stripChars r.resultText) 80) =
      "TRANSCRIPTION: ".data ++ stripChars r.resultText ∧
    (audio_callback st status r).term.cur = ljust PROMPT 80 ∧
    (audio_callback st status r).term.col = 0 := by
  obtain ⟨⟨L, cur, col⟩, errs, fed⟩ := st
  simp only [audio_callback, stdoutBytes, haccept, if_true, if_neg htext]
  rw [writeStr_final_branch L cur _ col hcur hclean]
  exact ⟨rfl, rstrip_ljust_strip "TRANSCRIPTION: ".data r.resultText 80 htext, rfl, rfl⟩

/-- Witness for the amended claim C1 at a concrete final chunk. -/
theorem final_chunk_prints_one_transcription_line_witness :
    stripChars "hello world".data ≠ [] ∧
    (audio_callback ⟨⟨[], PROMPT, 24⟩, [], 0⟩ none
        ⟨true, "hello world".data, []⟩).term.lines =
      [ljust ("TRANSCRIPTION: ".data ++ stripChars "hello world".data) 80] :=
  ⟨by decide,
    (final_chunk_prints_one_transcription_line ⟨⟨[], PROMPT, 24⟩, [], 0⟩ none
      ⟨true, "hello world".data, []⟩ rfl (by decide) (by decide) (by decide)).1⟩

set_option maxRecDepth 10000 in
/-- Claim C1 counterexample: starting from the initial prompt line, an
in-progress chunk whose stripped text has 70 characters makes the displayed
line 84 columns wide; the next final chunk (text hi) clears only 80
columns, so the single committed transcript line still carries remnants of
the previous display past column 80 and its visible content is not
TRANSCRIPTION followed by the final text. -/
theorem final_chunk_transcription_line_counterexample :
    (runChunks ⟨⟨[], PROMPT, 24⟩, [], 0⟩
        [(none, ⟨false, [], List.replicate 70 'a'⟩),
         (none, ⟨true, "hi".data, []⟩)]).term.lines.length = 1 ∧
    ∀ l ∈ (runChunks ⟨⟨[], PROMPT, 24⟩, [], 0⟩
        [(none, ⟨false, [], List.replicate 70 'a'⟩),
         (none, ⟨true, "hi".data, []⟩)]).term.lines,
      rstrip l ≠ "TRANSCRIPTION: ".data ++ stripChars "hi".data := by
  decide

/-- Claim C2 (amended): a chunk with nonempty stripped in-progress text,
arriving while the displayed line fits in 80 columns, rewrites the line so
that nothing of the previous display survives, and commits no permanent
line.  (When the stripped text is empty, or the previous display exceeded
80 columns, the source does not fully clear the line.) -/
theorem interim_chunk_overwrites_line
    (st : CallbackState) (status : Option Line) (r : ChunkResponse)
    (haccept : r.accept = false)
    (hp : stripChars r.interimText ≠ [])
    (hclean : ∀ c ∈ stripChars r.interimText, c ≠ '\r' ∧ c ≠ '\n')
    (hcur : st.term.cur.length ≤ 80) :
    (audio_callback st status r).term.cur =
      ljust ("[Speaking... ".data ++ stripChars r.interimText ++ "]".data) 80 ∧
    (audio_callback st status r).term.lines = st.term.lines ∧
    (audio_callback st status r).term.col = 0 := by
  have hlit1 : ∀ c ∈ "[Speaking... ".data, c ≠ '\r' ∧ c ≠ '\n' := by decide
  have hlit2 : ∀ c ∈ "]".data, c ≠ '\r' ∧ c ≠ '\n' := by decide
  have hdisp : ∀ c ∈ ljust ("[Speaking... ".data ++ stripChars r.interimText
      ++ "]".data) 80, c ≠ '\r' ∧ c ≠ '\n' := by
    intro c hcmem
    unfold ljust at hcmem
    rcases List.mem_append.mp hcmem with hmem | hmem
    · rcases List.mem_append.mp hmem with h2 | h2
      · rcases List.mem_append.mp h2 with h3 | h3
        · exact hlit1 c h3
        · exact hclean c h3
      · exact hlit2 c h2
    · rw [List.eq_of_mem_replicate hmem]
      exact ⟨by decide, by decide⟩
  obtain ⟨⟨L, cur, col⟩, errs, fed⟩ := st
  simp only [audio_callback, stdoutBytes, haccept, Bool.false_eq_true, if_false,
    if_neg hp]
  rw [writeStr_padded_of_le L cur _ col hcur hdisp]
  exact ⟨rfl, rfl, rfl⟩

/-- Witness for the amended claim C2 at a concrete in-progress chunk. -/
theorem interim_chunk_overwrites_line_witness :
    stripChars "hel".data ≠ [] ∧
    (audio_callback ⟨⟨[], ljust ("[Speaking... ".data ++ "hello".data
        ++ "]".data) 80, 0⟩, [], 1⟩ none ⟨false, [], "hel".data⟩).term.cur =
      ljust ("[Speaking... ".data ++ stripChars "hel".data ++ "]".data) 80 :=
  ⟨by decide,
    (interim_chunk_overwrites_line ⟨⟨[], ljust ("[Speaking... ".data
        ++ "hello".data ++ "]".data) 80, 0⟩, [], 1⟩ none
      ⟨false, [], "hel".data⟩ rfl (by decide) (by decide) (by decide)).1⟩

set_option maxRecDepth 10000 in
/-- Claim C2 counterexample: after displaying the in-progress text hello,
a chunk whose stripped in-progress text is empty writes nothing at all, so
the previous, longer fragment stays fully visible on screen: the transition
to empty text does not overwrite the previous line. -/
theorem interim_empty_no_overwrite_counterexample :
    (runChunks ⟨⟨[], PROMPT, 24⟩, [], 0⟩
        [(none, ⟨false, [], "hello".data⟩), (none, ⟨false, [], []⟩)]).term =
      (runChunks ⟨⟨[], PROMPT, 24⟩, [], 0⟩
        [(none, ⟨false, [], "hello".data⟩)]).term ∧
    rstrip (runChunks ⟨⟨[], PROMPT, 24⟩, [], 0⟩
        [(none, ⟨false, [], "hello".data⟩), (none, ⟨false, [], []⟩)]).term.cur =
      "[Speaking... hello]".data := by
  decide

/-- Claim C9 (confirmed): a final result whose stripped text is empty
commits no permanent line and silently rewrites the listening prompt over
the first 80 columns of the display. -/
theorem empty_final_silent_prompt
    (st : CallbackState) (status : Option Line) (r : ChunkResponse)
    (haccept : r.accept = true)
    (hempty : stripChars r.resultText = []) :
    (audio_callback st status r).term.lines = st.term.lines ∧
    (audio_callback st status r).term.cur =
      ljust PROMPT 80 ++ st.term.cur.drop 80 ∧
    (audio_callback st status r).term.col = 0 := by
  have hpr : ∀ c ∈ ljust PROMPT 80, c ≠ '\r' ∧ c ≠ '\n' := by decide
  have h80 : (ljust PROMPT 80).length = 80 := by decide
  obtain ⟨⟨L, cur, col⟩, errs, fed⟩ := st
  simp only [audio_callback, stdoutBytes, haccept, if_true, if_pos hempty,
    List.nil_append]
  rw [writeStr_padded L cur _ col hpr, h80]
  exact ⟨rfl, rfl, rfl⟩

/-- Witness for claim C9 at a concrete whitespace-only final chunk. -/
theorem empty_final_silent_prompt_witness :
    stripChars "   ".data = [] ∧
    (audio_callback ⟨⟨[], PROMPT, 24⟩, [], 0⟩ none
        ⟨true, "   ".data, []⟩).term.lines = [] :=
  ⟨by decide,
    (empty_final_silent_prompt ⟨⟨[], PROMPT, 24⟩, [], 0⟩ none
      ⟨true, "   ".data, []⟩ rfl (by decide)).1⟩

/-- Claim C7 (confirmed): a truthy driver status is logged to stderr and
the chunk is still fed to the recognizer and processed exactly as it would
be without the status: the stdout effect and the feed count are the same as
for an invocation with no status flag. -/
theorem status_logged_chunk_still_processed
    (st : CallbackState) (s : Line) (r : ChunkResponse) :
    (audio_callback st (some s) r).stderrLines = st.stderrLines ++ [statusLine s] ∧
    (audio_callback st (some s) r).term = (audio_callback st none r).term ∧
    (audio_callback st (some s) r).fed = st.fed + 1 ∧
    (audio_callback st (some s) r).fed = (audio_callback st none r).fed := by
  exact ⟨rfl, rfl, rfl, rfl⟩

/-! ## Module import sequence (src/main.py, lines 12-25)

Line 17 executes `import vosk` at top level, before the `try:` block of
lines 18-25; the except handler that prints the remediation instructions
only guards the `from vosk import ...` of line 19. -/

/-- Outcome of executing the import prelude. -/
structure StartupResult where
  stdoutLines : List Line
  exitCode : Nat
  uncaughtImportError : Bool
  proceedsToMain : Bool
deriving DecidableEq, Repr

/-- Line 24: the remediation instruction printed by the except handler. -/
def remediationLine : Line := "Please run: pip install vosk".data

/-- The import prelude (src/main.py lines 12-25).  `voskImportOk` is
whether `import vosk` on line 17 succeeds; `namesOk` is whether the
`from vosk import Model, KaldiRecognizer, SetLogLevel` of line 19 finds all
three names.  When line 17 fails the interpreter terminates on an uncaught
ImportError (traceback on stderr, exit status 1) before the try block is
ever entered; only a line-19 failure reaches the handler of lines 22-25,
which prints the two messages and calls `sys.exit(1)`. -/
def moduleStartup (voskImportOk namesOk : Bool) : StartupResult :=
  if voskImportOk then
    if namesOk then
      { stdoutLines := [], exitCode := 0, uncaughtImportError := false,
        proceedsToMain := true }
    else
      { stdoutLines :=
          ["FATAL ERROR: The 'vosk' package could not be imported.".data,
           remediationLine],
        exitCode := 1, uncaughtImportError := false, proceedsToMain := false }
  else
    { stdoutLines := [], exitCode := 1, uncaughtImportError := true,
      proceedsToMain := false }

/-- Claim C5 (code bug): when the vosk package cannot be imported, the
process does exit nonzero, but via the uncaught ImportError of the
top-level `import vosk` on line 17 - nothing is printed to stdout, so the
remediation instructions of the except handler (lines 22-25) never appear.
The handler is unreachable for a missing package. -/
theorem missing_vosk_prints_no_remediation (b : Bool) :
    (moduleStartup false b).uncaughtImportError = true ∧
    (moduleStartup false b).stdoutLines = [] ∧
    (moduleStartup false b).exitCode = 1 ∧
    remediationLine ∉ (moduleStartup false b).stdoutLines := by
  refine ⟨rfl, rfl, rfl, ?_⟩
  simp [moduleStartup]

/-! ## Lifecycle of main (src/main.py, lines 81-128)

`main` is straight-line code with two guarded setup steps and a keep-alive
loop; we model one execution as the trace of its observable events.  The
environment records whether `Model(MODEL_PATH)` / `KaldiRecognizer` raise
(line 93-95), whether `sd.InputStream(...)` raises (line 110-116), the
exception texts, and after how many completed `sd.sleep(1000)` iterations
the keyboard interrupt arrives. -/

inductive Event where
  | conMsg (s : Line)
  | recognizerSet
  | streamOpenAttempt
  | streamOpened
  | promptShown
  | sleepTick
  | interrupted
  | streamClosed
deriving DecidableEq, Repr

structure Env where
  modelLoadOk : Bool
  modelErr : Line
  streamOpenOk : Bool
  streamErr : Line
  interruptAfter : Nat
deriving DecidableEq, Repr

structure RunResult where
  events : List Event
  exitCode : Nat
  uncaughtException : Bool
deriving DecidableEq, Repr

/-- Line 35: the hardcoded model path constant. -/
def MODEL_PATH : Line := "models/vosk-model-en-us-0.42-gigaspeech".data

/-- Line 100: the fatal message printed when model loading raises; it
embeds the attempted MODEL_PATH. -/
def modelFatalLine : Line :=
  "\nFATAL ERROR: Could not load Vosk model from '".data ++ MODEL_PATH ++ "'.".data

/-- Line 118: the fatal message printed when stream construction raises. -/
def streamFatalLine : Line :=
  "FATAL ERROR: Could not start audio stream. Check 'sounddevice' setup or device access.".data

/-- Lines 86-89: the four banner prints at the top of main. -/
def headerEvents : List Event :=
  [Event.conMsg "--- Real-time Vosk Transcription ---".data,
   Event.conMsg ("1. Make sure you have downloaded a Vosk model (e.g., '".data
     ++ MODEL_PATH ++ "').".data),
   Event.conMsg "2. Set the correct path in the MODEL_PATH variable.".data,
   Event.conMsg "-----------------------------------------------------".data]

/-- Events after the `sd.InputStream` construction of line 110: on success
the `with stream:` block starts the stream, prints the prompt (line 124)
and sleeps until interrupted, whereupon the context manager closes the
stream exactly once and the KeyboardInterrupt propagates; on failure the
except block of lines 117-120 prints two messages and main returns. -/
def successTail (env : Env) : List Event :=
  if env.streamOpenOk then
    [Event.streamOpened, Event.promptShown]
      ++ List.replicate env.interruptAfter Event.sleepTick
      ++ [Event.interrupted, Event.streamClosed]
  else
    [Event.conMsg streamFatalLine, Event.conMsg env.streamErr]

/-- One execution of main (src/main.py lines 81-128).  Both failure paths
end in a plain `return` (lines 103 and 120), so the interpreter exits with
status 0; the interrupt path lets KeyboardInterrupt escape main, which
terminates the process with the conventional nonzero interrupt status. -/
def mainRun (env : Env) : RunResult :=
  if env.modelLoadOk then
    { events := headerEvents
        ++ [Event.recognizerSet,
            Event.conMsg "Model loaded successfully. Starting microphone input.".data,
            Event.conMsg "-----------------------------------------------------".data,
            Event.streamOpenAttempt]
        ++ successTail env,
      exitCode := if env.streamOpenOk then 130 else 0,
      uncaughtException := env.streamOpenOk }
  else
    { events := headerEvents
        ++ [Event.conMsg modelFatalLine,
            Event.conMsg "Ensure the model folder exists and the path is correct.".data,
            Event.conMsg env.modelErr],
      exitCode := 0, uncaughtException := false }

/-- Containment of one character sequence in another, for stating that a
printed message carries the model path. -/
def isPref (needle hay : Line) : Bool :=
  match needle, hay with
  | [], _ => true
  | _ :: _, [] => false
  | a :: t, b :: h => a = b && isPref t h

def hasSub (needle hay : Line) : Bool :=
  match hay with
  | [] => needle.isEmpty
  | _ :: t => isPref needle hay || hasSub needle t

/-- Claim C3 (code bug): when model loading fails, main does print the
fatal message carrying the attempted model path, but then merely returns
(line 103), so the process exits with status 0, not nonzero as the spec
requires. -/
theorem model_load_failure_exits_zero :
    hasSub MODEL_PATH modelFatalLine = true ∧
    Event.conMsg modelFatalLine ∈
      (mainRun ⟨false, "error 404".data, true, [], 0⟩).events ∧
    (mainRun ⟨false, "error 404".data, true, [], 0⟩).exitCode = 0 := by
  decide

/-- Claim C4 (confirmed): when model loading fails, main returns before
line 110 is ever reached, so no audio device open operation appears in the
trace. -/
theorem no_stream_open_without_model (env : Env)
    (h : env.modelLoadOk = false) :
    Event.streamOpenAttempt ∉ (mainRun env).events := by
  obtain ⟨mok, merr, sok, serr, k⟩ := env
  simp only at h
  subst h
  simp [mainRun, headerEvents]

/-- Witness for claim C4 at a concrete failing environment. -/
theorem no_stream_open_without_model_witness :
    (⟨false, [], true, [], 3⟩ : Env).modelLoadOk = false ∧
    Event.streamOpenAttempt ∉ (mainRun ⟨false, [], true, [], 3⟩).events :=
  ⟨rfl, no_stream_open_without_model ⟨false, [], true, [], 3⟩ rfl⟩

/-- Claim C6 (code bug): when stream construction fails, the failure is
reported, no capture starts, the recognizer remains constructed and no
exception escapes - but main returns (line 120), so the exit status is 0,
not nonzero as the spec requires. -/
theorem stream_open_failure_exits_zero :
    (mainRun ⟨true, [], false, "PortAudio error -9996".data, 0⟩).exitCode = 0 ∧
    Event.conMsg streamFatalLine ∈
      (mainRun ⟨true, [], false, "PortAudio error -9996".data, 0⟩).events ∧
    Event.recognizerSet ∈
      (mainRun ⟨true, [], false, "PortAudio error -9996".data, 0⟩).events ∧
    Event.streamOpened ∉
      (mainRun ⟨true, [], false, "PortAudio error -9996".data, 0⟩).events ∧
    Event.promptShown ∉
      (mainRun ⟨true, [], false, "PortAudio error -9996".data, 0⟩).events ∧
    (mainRun ⟨true, [], false, "PortAudio error -9996".data, 0⟩).uncaughtException
      = false := by
  decide

/-- Claim C8 (confirmed): whenever setup succeeds, interrupting the wait
loop after any number of sleep iterations produces exactly one
stream-close event in the trace - the `with stream:` context manager
releases the device exactly once. -/
theorem interrupt_closes_stream_once (env : Env)
    (hm : env.modelLoadOk = true) (hs : env.streamOpenOk = true) :
    ((mainRun env).events.count Event.streamClosed) = 1 := by
  obtain ⟨mok, merr, sok, serr, k⟩ := env
  simp only at hm hs
  subst hm
  subst hs
  simp [mainRun, successTail, headerEvents, List.count_append, List.count_cons,
    List.count_replicate]

/-- Witness for claim C8 with the interrupt arriving after five sleeps. -/
theorem interrupt_closes_stream_once_witness :
    (⟨true, [], true, [], 5⟩ : Env).modelLoadOk = true ∧
    ((mainRun ⟨true, [], true, [], 5⟩).events.count Event.streamClosed) = 1 :=
  ⟨rfl, interrupt_closes_stream_once ⟨true, [], true, [], 5⟩ rfl rfl⟩

/-- Claim C10 (confirmed): in every trace that reaches the stream
construction of line 110 (the only way callbacks can ever run), the global
recognizer was assigned (line 95) strictly earlier and never before that
point, so a callback invocation never sees recognizer = None. -/
theorem recognizer_set_before_stream_open (env : Env)
    (h : Event.streamOpenAttempt ∈ (mainRun env).events) :
    ∃ l r, (mainRun env).events = l ++ Event.recognizerSet :: r ∧
      Event.streamOpenAttempt ∈ r ∧ Event.recognizerSet ∉ l := by
  obtain ⟨mok, merr, sok, serr, k⟩ := env
  cases mok with
  | false =>
    exfalso
    revert h
    simp [mainRun, headerEvents]
  | true =>
    refine ⟨headerEvents,
      [Event.conMsg "Model loaded successfully. Starting microphone input.".data,
       Event.conMsg "-----------------------------------------------------".data,
       Event.streamOpenAttempt] ++ successTail ⟨true, merr, sok, serr, k⟩,
      ?_, ?_, ?_⟩
    · simp [mainRun]
    · simp
    · decide

/-- Witness for claim C10 at a concrete successful environment. -/
theorem recognizer_set_before_stream_open_witness :
    Event.streamOpenAttempt ∈ (mainRun ⟨true, [], true, [], 2⟩).events ∧
    ∃ l r, (mainRun ⟨true, [], true, [], 2⟩).events =
        l ++ Event.recognizerSet :: r ∧
      Event.streamOpenAttempt ∈ r ∧ Event.recognizerSet ∉ l :=
  ⟨by decide, recognizer_set_before_stream_open ⟨true, [], true, [], 2⟩ (by decide)⟩

end FBAI
